import Mathlib

/-!
Verification of the safepoint and signal coordination core
(`src/safepoint.c`, `src/signals-unix.c`).

The shallow embedding below translates the C code into Lean definitions:

* The global safepoint state (`jl_signal_pending`, `jl_gc_running`,
  `jl_safepoint_enable_cnt[3]` and the protection of the three guard
  pages) becomes the structure `SPState`.  The counters are `uint8_t`
  in C, so every increment and decrement is taken modulo 256.
* C functions become Lean functions on `SPState`.  A function whose
  `assert` can fail returns `Option _` (`none` models an assertion
  violation aborting the program).  Calls made under the safepoint
  lock are serialized in the source by `uv_mutex_lock`, so each such
  critical section is modelled as one atomic Lean function.
* Where a claim is about the order of observable actions (lock,
  unlock, mprotect, condition broadcast, ...) the function also
  returns the list of `SPEvent`s it performs, in program order.
-/

/-- Protection state of one safepoint guard page: `PROT_READ` or
`PROT_NONE` (the pages are allocated `PROT_READ` by
`jl_safepoint_init`). -/
inductive Prot where
  | readOnly : Prot
  | noAccess : Prot
deriving DecidableEq, Repr

/-- The global state of `safepoint.c`:
`jl_signal_pending`, `jl_gc_running`, `jl_safepoint_enable_cnt[3]`
(each a `uint8_t`) and the protection of the three pages of
`jl_safepoint_pages`. -/
structure SPState where
  signal_pending : Nat
  gc_running : Nat
  cnt0 : Nat
  cnt1 : Nat
  cnt2 : Nat
  prot0 : Prot
  prot1 : Prot
  prot2 : Prot
deriving DecidableEq, Repr

/-- `jl_safepoint_enable_cnt[i]`. -/
def SPState.cnt (s : SPState) : Fin 3 → Nat
  | 0 => s.cnt0
  | 1 => s.cnt1
  | 2 => s.cnt2

/-- Protection of page `i` of `jl_safepoint_pages`. -/
def SPState.prot (s : SPState) : Fin 3 → Prot
  | 0 => s.prot0
  | 1 => s.prot1
  | 2 => s.prot2

/-- Write `jl_safepoint_enable_cnt[i] = v`. -/
def SPState.setCnt (s : SPState) (i : Fin 3) (v : Nat) : SPState :=
  match i with
  | 0 => { s with cnt0 := v }
  | 1 => { s with cnt1 := v }
  | 2 => { s with cnt2 := v }

/-- `mprotect` page `i` to protection `p`. -/
def SPState.setProt (s : SPState) (i : Fin 3) (p : Prot) : SPState :=
  match i with
  | 0 => { s with prot0 := p }
  | 1 => { s with prot1 := p }
  | 2 => { s with prot2 := p }

/-- State established by `jl_safepoint_init`: the three pages are
mapped `PROT_READ`, all counters are zero, no sigint pending, no GC
running. -/
def initSP : SPState :=
  { signal_pending := 0, gc_running := 0,
    cnt0 := 0, cnt1 := 0, cnt2 := 0,
    prot0 := .readOnly, prot1 := .readOnly, prot2 := .readOnly }

/-- `jl_safepoint_enable(idx)` (safepoint.c:48).  The C code is
```
if (jl_safepoint_enable_cnt[idx]++ != 0) {
    assert(jl_safepoint_enable_cnt[idx] <= 2);
    return;
}
mprotect(pageaddr, jl_page_size, PROT_NONE);
```
The counter is a `uint8_t`, so the post-increment wraps modulo 256.
`none` models a failure of the `assert`. -/
def jl_safepoint_enable (s : SPState) (idx : Fin 3) : Option SPState :=
  let old := s.cnt idx
  let s' := s.setCnt idx ((old + 1) % 256)
  if old ≠ 0 then
    if (old + 1) % 256 ≤ 2 then some s' else none
  else
    some (s'.setProt idx .noAccess)

/-- `jl_safepoint_disable(idx)` (safepoint.c:69).  The C code is
```
if (--jl_safepoint_enable_cnt[idx] != 0) {
    assert(jl_safepoint_enable_cnt[idx] > 0);
    return;
}
mprotect(pageaddr, jl_page_size, PROT_READ);
```
The counter is a `uint8_t`: the pre-decrement of 0 wraps to 255, and
the `assert (cnt > 0)` compares an unsigned value that is already
known to be nonzero, so it can never fail.  `none` models a failure
of that assert (provably unreachable). -/
def jl_safepoint_disable (s : SPState) (idx : Fin 3) : Option SPState :=
  let c := (s.cnt idx + 255) % 256
  let s' := s.setCnt idx c
  if c ≠ 0 then
    if c > 0 then some s' else none
  else
    some (s'.setProt idx .readOnly)

/-- Observable actions of the safepoint functions, in program order. -/
inductive SPEvent where
  | lock : SPEvent
  | unlock : SPEvent
  | broadcast : SPEvent
  | enable : Fin 3 → SPEvent
  | disable : Fin 3 → SPEvent
  | storeGC : Nat → SPEvent
  | casGC : Bool → SPEvent
  | waitGC : SPEvent
deriving DecidableEq, Repr

/-- `JL_GC_STATE_WAITING`, the value `jl_safepoint_start_gc` asserts
for the caller's `gc_state` on the multi-threaded path. -/
def JL_GC_STATE_WAITING : Nat := 1

/-- `jl_safepoint_wait_gc` (safepoint.c:159).  The loop
```
while (jl_atomic_load_relaxed(&jl_gc_running) ||
       jl_atomic_load_acquire(&jl_gc_running)) { ... cond_wait ... }
```
is modelled over the list of values the successive loads of
`jl_gc_running` observe (another thread is mutating it).  The result
is `some w` with `w` the value of the final (acquire) load when the
loop exits, `none` when the observation list is exhausted while the
thread is still blocked. -/
def jl_safepoint_wait_gc : List Nat → Option Nat
  | [] => none
  | v :: rest =>
    if v ≠ 0 then jl_safepoint_wait_gc rest
    else
      match rest with
      | [] => none
      | w :: rest2 => if w = 0 then some w else jl_safepoint_wait_gc rest2

/-- `jl_safepoint_start_gc` (safepoint.c:112) for one caller.
`n_threads` is `jl_n_threads` and `gc_state` the caller's
`ptls->gc_state` (asserted `JL_GC_STATE_WAITING` on the slow path).
Returns the `int` result, the new state and the event trace; `none`
models an assertion failure.  On the contended path the lock
serializes the critical section, so the whole locked body is one
atomic step; a loser records `casGC false` and then calls
`jl_safepoint_wait_gc` after unlocking (event `waitGC`). -/
def jl_safepoint_start_gc (n_threads : Nat) (gc_state : Nat) (s : SPState) :
    Option (Bool × SPState × List SPEvent) :=
  if n_threads = 1 then
    some (true, { s with gc_running := 1 }, [SPEvent.storeGC 1])
  else if gc_state ≠ JL_GC_STATE_WAITING then none
  else if s.gc_running ≠ 0 then
    some (false, s, [SPEvent.lock, SPEvent.casGC false, SPEvent.unlock,
                     SPEvent.waitGC])
  else
    (jl_safepoint_enable { s with gc_running := 1 } 1).bind fun s1 =>
    (jl_safepoint_enable s1 2).map fun s2 =>
      (true, s2, [SPEvent.lock, SPEvent.casGC true, SPEvent.enable 1,
                  SPEvent.enable 2, SPEvent.unlock])

/-- `jl_safepoint_end_gc` (safepoint.c:137), non-Apple build (the
`__APPLE__` `jl_mach_gc_end` call is compiled out).  `none` models a
failure of the entry `assert(jl_gc_running)`. -/
def jl_safepoint_end_gc (n_threads : Nat) (s : SPState) :
    Option (SPState × List SPEvent) :=
  if s.gc_running = 0 then none
  else if n_threads = 1 then
    some ({ s with gc_running := 0 }, [SPEvent.storeGC 0])
  else
    (jl_safepoint_disable s 2).bind fun s1 =>
    (jl_safepoint_disable s1 1).map fun s2 =>
      ({ s2 with gc_running := 0 },
       [SPEvent.lock, SPEvent.disable 2, SPEvent.disable 1,
        SPEvent.storeGC 0, SPEvent.unlock, SPEvent.broadcast])

/-- `jl_safepoint_enable_sigint` (safepoint.c:176).  The `switch` on
`jl_signal_pending` falls through: from 0 it enables slot 0 then
slot 1, from 1 it enables slot 1, and it always ends with
`jl_signal_pending = 2`.  The `default: assert(0)` arm is `none`. -/
def jl_safepoint_enable_sigint (s : SPState) : Option SPState :=
  match s.signal_pending with
  | 0 =>
    (jl_safepoint_enable s 0).bind fun s1 =>
    (jl_safepoint_enable s1 1).map fun s2 => { s2 with signal_pending := 2 }
  | 1 =>
    (jl_safepoint_enable s 1).map fun s1 => { s1 with signal_pending := 2 }
  | 2 => some { s with signal_pending := 2 }
  | _ + 3 => none

/-- `jl_safepoint_defer_sigint` (safepoint.c:197). -/
def jl_safepoint_defer_sigint (s : SPState) : Option SPState :=
  if s.signal_pending = 2 then
    (jl_safepoint_disable s 1).map fun s1 => { s1 with signal_pending := 1 }
  else
    some s

/-- `jl_safepoint_consume_sigint` (safepoint.c:208).  The `switch`
falls through: from 2 it disables slot 1 then slot 0, from 1 it
disables slot 0; `has_signal` is set in the `case 1` arm (so also on
the fall-through from 2); it always ends with
`jl_signal_pending = 0`.  The `default: assert(0)` arm is `none`. -/
def jl_safepoint_consume_sigint (s : SPState) : Option (Bool × SPState) :=
  match s.signal_pending with
  | 0 => some (false, { s with signal_pending := 0 })
  | 1 =>
    (jl_safepoint_disable s 0).map fun s1 =>
      (true, { s1 with signal_pending := 0 })
  | 2 =>
    (jl_safepoint_disable s 1).bind fun s1 =>
    (jl_safepoint_disable s1 0).map fun s2 =>
      (true, { s2 with signal_pending := 0 })
  | _ + 3 => none

/-- The protection state S1 pairs with a counter value:
counter > 0 iff the page is inaccessible. -/
def protOfCnt (c : Nat) : Prot :=
  if 0 < c then .noAccess else .readOnly

/-!
## `src/signals-unix.c`: the fault router `segv_handler`

`segv_handler` (signals-unix.c:313) branches on facts about the
fault (address classification, thread, context).  Those facts are
collected in `SegvInput`; the handler's effect is an action plus the
trace of runtime calls it makes and the updated safepoint state.
`jl_addr_is_safepoint`, `jl_set_gc_and_wait`, `is_addr_on_stack`,
`jl_clear_force_sigint` and `jl_throw_in_ctx` live outside this
repository's sources, so they appear here only as the abstract input
bits and trace events the handler consumes and emits. -/

/-- `SIGSEGV` on Linux. -/
def SIGSEGV : Nat := 11
/-- `SIGBUS` on Linux. -/
def SIGBUS : Nat := 7

/-- The facts `segv_handler` branches on for one memory fault. -/
structure SegvInput where
  /-- `jl_get_safe_restore() != NULL`. -/
  safe_restore : Bool
  /-- `jl_get_current_task() != NULL`. -/
  has_ct : Bool
  /-- the signal number (`SIGSEGV` or `SIGBUS` by the entry assert). -/
  sig : Nat
  /-- `jl_addr_is_safepoint((uintptr_t)info->si_addr)`. -/
  addr_is_safepoint : Bool
  /-- `jl_atomic_load_relaxed(&ct->tid)`. -/
  tid : Nat
  /-- `ct->ptls->defer_signal`. -/
  defer_signal : Nat
  /-- `is_addr_on_stack(ct, info->si_addr)`. -/
  addr_on_stack : Bool
  /-- `is_addr_on_sigstack(ct->ptls, info->si_addr)`. -/
  addr_on_sigstack : Bool
  /-- `is_addr_on_sigstack(ct->ptls, (void*)jl_get_rsp_from_ctx(context))`. -/
  rsp_on_sigstack : Bool
  /-- `info->si_code == SEGV_ACCERR`. -/
  si_code_accerr : Bool
  /-- `is_write_fault(context)`. -/
  is_write_fault : Bool
  /-- whether the build defines `SEGV_EXCEPTION`. -/
  segv_exception : Bool
deriving DecidableEq, Repr

/-- `jl_is_on_sigstack(ptls, ptr, context)` (signals-unix.c:307):
true iff both the faulting address and the context's stack pointer
are on the signal stack. -/
def jl_is_on_sigstack (inp : SegvInput) : Bool :=
  inp.addr_on_sigstack && inp.rsp_on_sigstack

/-- How `segv_handler` leaves the faulting thread. -/
inductive SegvAction where
  /-- `jl_call_in_ctx(NULL, &jl_sig_throw, sig, context)` (safe-restore). -/
  | callSigThrow : SegvAction
  /-- `sigdie_handler(sig, info, context)`. -/
  | sigdie : SegvAction
  /-- `jl_throw_in_ctx(ct, jl_interrupt_exception, sig, context)`. -/
  | throwInterrupt : SegvAction
  /-- `jl_throw_in_ctx(ct, jl_stackovf_exception, sig, context)`. -/
  | throwStackOverflow : SegvAction
  /-- `jl_safe_printf("ERROR: Signal stack overflow, exit\n")`
  followed by `_exit(code)`. -/
  | printAndExit : Nat → SegvAction
  /-- `jl_throw_in_ctx(ct, jl_readonlymemory_exception, sig, context)`. -/
  | throwReadOnlyMemory : SegvAction
  /-- `jl_throw_in_ctx(ct, jl_segv_exception, sig, context)`. -/
  | throwSegv : SegvAction
  /-- plain `return` from the handler. -/
  | ret : SegvAction
deriving DecidableEq, Repr

/-- Runtime calls made by `segv_handler` on the safepoint path. -/
inductive SegvEvent where
  /-- `jl_set_gc_and_wait()`: enter GC wait. -/
  | setGCAndWait : SegvEvent
  /-- `jl_safepoint_defer_sigint()`. -/
  | deferSigint : SegvEvent
  /-- `jl_safepoint_consume_sigint()` and its result. -/
  | consumeSigint : Bool → SegvEvent
  /-- `jl_clear_force_sigint()`. -/
  | clearForceSigint : SegvEvent
deriving DecidableEq, Repr

/-- `segv_handler` (signals-unix.c:313).  Branches in source order:
safe-restore, missing current task, the
`assert(sig == SIGSEGV || sig == SIGBUS)` (`none` on failure),
safepoint poll, task-stack overflow, signal-stack overflow,
read-only-memory write, and the final `SEGV_EXCEPTION`/`sigdie`
fallback.  Returns the action, the runtime calls made, and the
safepoint state after any `defer_sigint`/`consume_sigint`. -/
def segv_handler (inp : SegvInput) (s : SPState) :
    Option (SegvAction × List SegvEvent × SPState) :=
  if inp.safe_restore then some (.callSigThrow, [], s)
  else if !inp.has_ct then some (.sigdie, [], s)
  else if ¬(inp.sig = SIGSEGV ∨ inp.sig = SIGBUS) then none
  else if inp.addr_is_safepoint then
    if inp.tid ≠ 0 then some (.ret, [.setGCAndWait], s)
    else if inp.defer_signal ≠ 0 then
      (jl_safepoint_defer_sigint s).map fun s1 =>
        (.ret, [.setGCAndWait, .deferSigint], s1)
    else
      (jl_safepoint_consume_sigint s).map fun r =>
        if r.1 then
          (.throwInterrupt,
           [.setGCAndWait, .consumeSigint true, .clearForceSigint], r.2)
        else
          (.ret, [.setGCAndWait, .consumeSigint false], r.2)
  else if inp.addr_on_stack then some (.throwStackOverflow, [], s)
  else if jl_is_on_sigstack inp then
    some (.printAndExit (inp.sig + 128), [], s)
  else if inp.sig = SIGSEGV && inp.si_code_accerr && inp.is_write_fault then
    some (.throwReadOnlyMemory, [], s)
  else if inp.segv_exception then some (.throwSegv, [], s)
  else some (.sigdie, [], s)

/-!
## Profile sampling in `signal_listener`

The per-thread body of the sampling loop (signals-unix.c:844-905)
appends one record per successfully suspended thread to the profile
buffer `bt_data_prof` (an array of `jl_bt_element_t`, a union of a
`uintptr_t` and a `jl_value_t*`), or stops the profile timer when
`jl_profile_is_buffer_full()` holds. -/

/-- One `jl_bt_element_t` written to the profile buffer. -/
inductive ProfEntry where
  | uintptr : Nat → ProfEntry
  | jlvalue : Nat → ProfEntry
deriving DecidableEq, Repr

/-- Per-thread inputs of one iteration of the sampling loop. -/
structure ProfThread where
  /-- `jl_thread_suspend_and_get_state` returned a non-NULL context. -/
  suspend_ok : Bool
  /-- the entries `rec_backtrace_ctx` writes for this thread. -/
  bt : List ProfEntry
  /-- `ptls2->tid`. -/
  tid : Nat
  /-- `jl_atomic_load_relaxed(&ptls2->current_task)`. -/
  current_task : Nat
  /-- `cycleclock()`. -/
  cycles : Nat
  /-- `jl_atomic_load_relaxed(&ptls2->sleep_check_state)`. -/
  sleep_state : Nat
deriving DecidableEq, Repr

/-- The six words written after the backtrace of one sampled thread
(signals-unix.c:886-899): `tid + 1` (0 is kept as a sentinel), the
current task pointer, the cycle clock, `sleep_check_state + 1`, and
the two zero entries marking the end of the block. -/
def profile_trailer (t : ProfThread) : List ProfEntry :=
  [ProfEntry.uintptr (t.tid + 1),
   ProfEntry.jlvalue t.current_task,
   ProfEntry.uintptr t.cycles,
   ProfEntry.uintptr (t.sleep_state + 1),
   ProfEntry.uintptr 0,
   ProfEntry.uintptr 0]

/-- One iteration of the sampling loop for thread `t`
(signals-unix.c:844-905), given the `jl_profile_is_buffer_full`
predicate on the current buffer.  The accumulator carries the
profile buffer and the `running` flag (`jl_profile_stop_timer`
clears `running`).  A thread whose suspension failed is skipped
(`continue`); with the profiler stopped nothing is recorded. -/
def profile_step (isFull : List ProfEntry → Bool) (acc : List ProfEntry × Bool)
    (t : ProfThread) : List ProfEntry × Bool :=
  let (buf, running) := acc
  if !t.suspend_ok then (buf, running)
  else if running then
    if isFull buf then (buf, false)
    else (buf ++ t.bt ++ profile_trailer t, running)
  else (buf, running)

/-- One full sampling pass over the sampled thread order. -/
def profile_pass (isFull : List ProfEntry → Bool) (buf : List ProfEntry)
    (running : Bool) (ts : List ProfThread) : List ProfEntry × Bool :=
  ts.foldl (profile_step isFull) (buf, running)

/-!
## The suspend/resume rendezvous (`jl_thread_suspend_and_get_state`,
`jl_thread_resume`, `usr2_handler`)

The listener and the target thread communicate through the atomic
`signal_request` word, `in_signal_lock`, and the two condition
variables `signal_caught_cond` and `exit_signal_cond`
(signals-unix.c:369-523).  The pair of programs is embedded as a
transition system: a configuration records both program counters,
the shared word, the mutex owner and the context-capture flags, and
`rdvStep` enumerates every atomic transition the two threads can
take.  Condition waits release the mutex and park the thread at a
waiting counter; a broadcast moves every parked thread to its
re-acquire counter; the listener's timed wait can additionally
return `ETIMEDOUT` at any moment while parked (and, as POSIX
permits, even after the broadcast woke it).  Spurious wakeups are
not modelled: the source's asserts assume their absence.

Listener counters (`jl_thread_suspend_and_get_state` then, on
success, `jl_thread_resume`):
 0 lock `in_signal_lock`
 1 `store_release(signal_request, 1)`; `pthread_kill(SIGUSR2)`
 2 enter `pthread_cond_timedwait(signal_caught_cond)`: release mutex
 3 parked (timed): woken by a caught-broadcast, or times out (to 4)
 4 re-acquire the mutex, return `ETIMEDOUT`
 5 re-acquire the mutex after a wakeup
 6 timeout branch: `cmpswap(signal_request, 1 -> 0)`; on success go
   to 7; if the word is -1, `pthread_cond_wait(signal_caught_cond)`
   (to 10); if the word is 0 fall through to 8
 7 `*ctx = NULL`; unlock; return failure (20)
 8 `load_acquire(signal_request)` (asserted 0); `*ctx = signal_context`
10 parked (untimed) on `signal_caught_cond`
11 suspend returned success; `jl_thread_resume` begins:
   `store_release(signal_request, sig == -1 ? 3 : 1)`
12 `pthread_cond_broadcast(exit_signal_cond)`
13 enter `pthread_cond_wait(signal_caught_cond)`: release mutex
14 parked (untimed)
15 re-acquire the mutex
16 `load_acquire(signal_request)` (asserted 0)
17 unlock
18 resume complete
20 suspend returned failure

Target counters (`usr2_handler`, reached after `pthread_kill`):
 0 `exchange(signal_request, -1)`; if the old value is 1 go to 1,
   otherwise to 90
 1 lock `in_signal_lock`
 2 `signal_context = jl_to_bt_context(ctx)`;
   `exchange(signal_request, 0)` (asserted -1)
 3 `pthread_cond_broadcast(signal_caught_cond)`
 4 enter `pthread_cond_wait(exit_signal_cond)`: release mutex
 5 parked on `exit_signal_cond`
 6 re-acquire the mutex
 7 `exchange(signal_request, 0)` (asserted 1 or 3)
 8 `pthread_cond_broadcast(signal_caught_cond)`
 9 unlock
10 handler done (request-1 path)
90 other branch: `jl_atomic_exchange(&ptls->signal_request, 0)`
91 handler done (other branch) -/

/-- A configuration of the rendezvous: listener counter, target
counter, `signal_request`, the `in_signal_lock` owner (0 free,
1 listener, 2 target), whether the target published
`signal_context`, and whether the listener set `*ctx = NULL`. -/
structure RConf where
  lpc : Nat
  tpc : Nat
  req : Int
  mutex : Nat
  ctxPublished : Bool
  ctxNull : Bool
deriving DecidableEq, Repr

/-- Initial configuration: both threads before the rendezvous,
`signal_request` 0, mutex free. -/
def rdvInit : RConf :=
  { lpc := 0, tpc := 0, req := 0, mutex := 0,
    ctxPublished := false, ctxNull := false }

/-- Effect of `pthread_cond_broadcast(signal_caught_cond)` on the
listener: parked listeners (timed 3, untimed 10, resume wait 14)
move to their re-acquire counters. -/
def wakeCaught (lpc : Nat) : Nat :=
  if lpc = 3 then 5 else if lpc = 10 then 5 else if lpc = 14 then 15 else lpc

/-- Effect of `pthread_cond_broadcast(exit_signal_cond)` on the
target: a target parked at 5 moves to its re-acquire counter. -/
def wakeExit (tpc : Nat) : Nat :=
  if tpc = 5 then 6 else tpc

/-- The listener's possible atomic transitions from `c`, with `rv`
the value `jl_thread_resume` stores (`sig == -1 ? 3 : 1`). -/
def rdvStepL (rv : Int) (c : RConf) : List RConf :=
  if c.lpc = 0 then
    if c.mutex = 0 then [{ c with mutex := 1, lpc := 1 }] else []
  else if c.lpc = 1 then [{ c with req := 1, lpc := 2 }]
  else if c.lpc = 2 then [{ c with mutex := 0, lpc := 3 }]
  else if c.lpc = 3 then [{ c with lpc := 4 }]
  else if c.lpc = 4 then
    if c.mutex = 0 then [{ c with mutex := 1, lpc := 6 }] else []
  else if c.lpc = 5 then
    ({ c with lpc := 4 }) ::
    (if c.mutex = 0 then [{ c with mutex := 1, lpc := 8 }] else [])
  else if c.lpc = 6 then
    if c.req = 1 then [{ c with req := 0, ctxNull := true, lpc := 7 }]
    else if c.req = -1 then [{ c with mutex := 0, lpc := 10 }]
    else [{ c with lpc := 8 }]
  else if c.lpc = 7 then [{ c with mutex := 0, lpc := 20 }]
  else if c.lpc = 8 then [{ c with lpc := 11 }]
  else if c.lpc = 11 then [{ c with req := rv, lpc := 12 }]
  else if c.lpc = 12 then [{ c with tpc := wakeExit c.tpc, lpc := 13 }]
  else if c.lpc = 13 then [{ c with mutex := 0, lpc := 14 }]
  else if c.lpc = 15 then
    if c.mutex = 0 then [{ c with mutex := 1, lpc := 16 }] else []
  else if c.lpc = 16 then [{ c with lpc := 17 }]
  else if c.lpc = 17 then [{ c with mutex := 0, lpc := 18 }]
  else []

/-- The target's possible atomic transitions from `c`.  The
`usr2_handler` only runs after `pthread_kill`, hence the `2 ≤ c.lpc`
guard on its first step. -/
def rdvStepT (c : RConf) : List RConf :=
  if c.tpc = 0 then
    if 2 ≤ c.lpc then
      if c.req = 1 then [{ c with req := -1, tpc := 1 }]
      else [{ c with req := -1, tpc := 90 }]
    else []
  else if c.tpc = 1 then
    if c.mutex = 0 then [{ c with mutex := 2, tpc := 2 }] else []
  else if c.tpc = 2 then [{ c with ctxPublished := true, req := 0, tpc := 3 }]
  else if c.tpc = 3 then [{ c with lpc := wakeCaught c.lpc, tpc := 4 }]
  else if c.tpc = 4 then [{ c with mutex := 0, tpc := 5 }]
  else if c.tpc = 6 then
    if c.mutex = 0 then [{ c with mutex := 2, tpc := 7 }] else []
  else if c.tpc = 7 then [{ c with req := 0, tpc := 8 }]
  else if c.tpc = 8 then [{ c with lpc := wakeCaught c.lpc, tpc := 9 }]
  else if c.tpc = 9 then [{ c with mutex := 0, tpc := 10 }]
  else if c.tpc = 90 then [{ c with req := 0, tpc := 91 }]
  else []

/-- All atomic transitions from `c`. -/
def rdvStep (rv : Int) (c : RConf) : List RConf :=
  rdvStepL rv c ++ rdvStepT c

/-- Breadth-first closure of `rdvStep` from a frontier. -/
def rdvExplore (rv : Int) : Nat → List RConf → List RConf → List RConf
  | 0, visited, _ => visited
  | _ + 1, visited, [] => visited
  | n + 1, visited, frontier =>
    let new := ((frontier.flatMap (rdvStep rv)).filter
      (fun c => decide (¬ c ∈ visited))).dedup
    rdvExplore rv n (visited ++ new) new

/-- Every configuration reachable from `rdvInit` (the fuel 64 is
enough: `rdvReach_closed` proves closure under `rdvStep`). -/
def rdvReach (rv : Int) : List RConf :=
  rdvExplore rv 64 [rdvInit] [rdvInit]

/-!
## Derived definitions used by the claims -/

/-- One internal safepoint-page operation on a fixed slot. -/
inductive SlotOp where
  | en : SlotOp
  | dis : SlotOp
deriving DecidableEq, Repr

/-- Apply one slot operation to slot `i`. -/
def applySlotOp (i : Fin 3) (s : SPState) : SlotOp → Option SPState
  | .en => jl_safepoint_enable s i
  | .dis => jl_safepoint_disable s i

/-- Run a sequence of enable/disable calls on slot `i`; `none` as
soon as one of them hits an assertion failure. -/
def runOps (i : Fin 3) : List SlotOp → SPState → Option SPState
  | [], s => some s
  | op :: rest, s => (applySlotOp i s op).bind (runOps i rest)

/-- `okFrom c ops`: starting from counter height `c`, no prefix of
`ops` ever disables below zero. -/
def okFrom : Nat → List SlotOp → Bool
  | _, [] => true
  | c, .en :: rest => okFrom (c + 1) rest
  | 0, .dis :: _ => false
  | c + 1, .dis :: rest => okFrom c rest

/-- Final counter height of `ops` started from height `c` (with the
`okFrom` side condition the truncated subtraction never bites). -/
def heightFrom : Nat → List SlotOp → Nat
  | c, [] => c
  | c, .en :: rest => heightFrom (c + 1) rest
  | c, .dis :: rest => heightFrom (c - 1) rest

/-- A balanced sequence of `enable`/`disable` calls: every prefix
has at least as many enables as disables, and the totals agree. -/
def balanced (ops : List SlotOp) : Bool :=
  okFrom 0 ops && (heightFrom 0 ops == 0)

/-- `jl_safepoint_enable_sigint()` immediately followed by
`jl_safepoint_consume_sigint()`, with the consume result. -/
def sigintPair (s : SPState) : Option (Bool × SPState) :=
  (jl_safepoint_enable_sigint s).bind jl_safepoint_consume_sigint

/-- `k` contending callers of `jl_safepoint_start_gc` run one after
another (the safepoint lock serializes the locked section, so every
interleaving of the critical sections is one such serial order).
Collects each caller's return value. -/
def startGCRace (n_threads gc_state : Nat) :
    Nat → SPState → Option (List Bool × SPState)
  | 0, s => some ([], s)
  | k + 1, s =>
    (jl_safepoint_start_gc n_threads gc_state s).bind fun r =>
    (startGCRace n_threads gc_state k r.2.1).map fun q => (r.1 :: q.1, q.2)

/-- The value `jl_thread_resume` stores into `signal_request`
(signals-unix.c:408): `sig == -1 ? 3 : 1`. -/
def jl_thread_resume_store (sig : Int) : Int :=
  if sig = -1 then 3 else 1

/-- Configurations reachable in the rendezvous transition system. -/
inductive RdvReachable (rv : Int) : RConf → Prop where
  | init : RdvReachable rv rdvInit
  | step {c c' : RConf} : RdvReachable rv c → c' ∈ rdvStep rv c →
      RdvReachable rv c'

/-!
## Concrete states and inputs used to settle individual claims -/

/-- A wellformed state with interrupt level 1: one sigint is
pending, the sigint page (slot 0) is enabled once for it, nothing
else is enabled. -/
def levelOneSP : SPState :=
  { signal_pending := 1, gc_running := 0,
    cnt0 := 1, cnt1 := 0, cnt2 := 0,
    prot0 := .noAccess, prot1 := .readOnly, prot2 := .readOnly }

/-- The state while the collector runs with two threads: GC flag
set, slots 1 and 2 each enabled once by `jl_safepoint_start_gc`. -/
def gcRunningSP : SPState :=
  { signal_pending := 0, gc_running := 1,
    cnt0 := 0, cnt1 := 1, cnt2 := 1,
    prot0 := .readOnly, prot1 := .noAccess, prot2 := .noAccess }

/-- A safepoint-poll fault on thread 0 with a safe-restore
continuation installed (`jl_get_safe_restore() != NULL`). -/
def safeRestoreFault : SegvInput :=
  { safe_restore := true, has_ct := true, sig := 11,
    addr_is_safepoint := true, tid := 0, defer_signal := 0,
    addr_on_stack := false, addr_on_sigstack := false,
    rsp_on_sigstack := false, si_code_accerr := false,
    is_write_fault := false, segv_exception := false }

/-- A fault whose address is inside the signal stack while the
trapped stack pointer is not (no safepoint, no task-stack overflow,
not a write fault). -/
def sigstackAddrFault : SegvInput :=
  { safe_restore := false, has_ct := true, sig := 11,
    addr_is_safepoint := false, tid := 0, defer_signal := 0,
    addr_on_stack := false, addr_on_sigstack := true,
    rsp_on_sigstack := false, si_code_accerr := true,
    is_write_fault := false, segv_exception := false }

/-- A thread being sampled by the profiler: suspension succeeded
and its backtrace is one entry long. -/
def sampledThread : ProfThread :=
  { suspend_ok := true, bt := [ProfEntry.uintptr 42], tid := 0,
    current_task := 5, cycles := 9, sleep_state := 0 }

/-!
## Helper lemmas -/

theorem cnt_setCnt (s : SPState) (i : Fin 3) (v : Nat) :
    (s.setCnt i v).cnt i = v := by
  fin_cases i <;> rfl

theorem prot_setProt (s : SPState) (i : Fin 3) (p : Prot) :
    (s.setProt i p).prot i = p := by
  fin_cases i <;> rfl

theorem prot_setCnt (s : SPState) (i j : Fin 3) (v : Nat) :
    (s.setCnt i v).prot j = s.prot j := by
  fin_cases i <;> fin_cases j <;> rfl

theorem cnt_setProt (s : SPState) (i j : Fin 3) (p : Prot) :
    (s.setProt i p).cnt j = s.cnt j := by
  fin_cases i <;> fin_cases j <;> rfl

theorem pending_setCnt (s : SPState) (i : Fin 3) (v : Nat) :
    (s.setCnt i v).signal_pending = s.signal_pending := by
  fin_cases i <;> rfl

theorem pending_setProt (s : SPState) (i : Fin 3) (p : Prot) :
    (s.setProt i p).signal_pending = s.signal_pending := by
  fin_cases i <;> rfl

theorem gc_setCnt (s : SPState) (i : Fin 3) (v : Nat) :
    (s.setCnt i v).gc_running = s.gc_running := by
  fin_cases i <;> rfl

theorem gc_setProt (s : SPState) (i : Fin 3) (p : Prot) :
    (s.setProt i p).gc_running = s.gc_running := by
  fin_cases i <;> rfl

theorem enable_at_zero (s : SPState) (i : Fin 3) (h : s.cnt i = 0) :
    jl_safepoint_enable s i = some ((s.setCnt i 1).setProt i .noAccess) := by
  simp [jl_safepoint_enable, h]

theorem enable_at_one (s : SPState) (i : Fin 3) (h : s.cnt i = 1) :
    jl_safepoint_enable s i = some (s.setCnt i 2) := by
  simp [jl_safepoint_enable, h]

theorem enable_at_two (s : SPState) (i : Fin 3) (h : s.cnt i = 2) :
    jl_safepoint_enable s i = none := by
  simp [jl_safepoint_enable, h]

theorem disable_at_zero (s : SPState) (i : Fin 3) (h : s.cnt i = 0) :
    jl_safepoint_disable s i = some (s.setCnt i 255) := by
  simp [jl_safepoint_disable, h]

theorem disable_at_one (s : SPState) (i : Fin 3) (h : s.cnt i = 1) :
    jl_safepoint_disable s i = some ((s.setCnt i 0).setProt i .readOnly) := by
  simp [jl_safepoint_disable, h]

theorem disable_at_two (s : SPState) (i : Fin 3) (h : s.cnt i = 2) :
    jl_safepoint_disable s i = some (s.setCnt i 1) := by
  simp [jl_safepoint_disable, h]

/-- `jl_safepoint_disable` never hits an assertion failure: on a
`uint8_t` counter the decremented value, when nonzero, is always
positive. -/
theorem disable_some (s : SPState) (i : Fin 3) :
    ∃ s', jl_safepoint_disable s i = some s' := by
  unfold jl_safepoint_disable
  by_cases h : (s.cnt i + 255) % 256 ≠ 0 <;> simp [h]
  omega

theorem initSP_cnt (i : Fin 3) : initSP.cnt i = 0 := by
  fin_cases i <;> rfl

theorem initSP_prot (i : Fin 3) : initSP.prot i = .readOnly := by
  fin_cases i <;> rfl

/-- Tracking invariant for a run of enable/disable calls on slot
`i`: if the run never dips below zero and succeeds, the counter
follows the height, stays at most 2, and the page protection stays
the pure function `protOfCnt` of the counter. -/
theorem runOps_tracked (i : Fin 3) :
    ∀ (ops : List SlotOp) (c : Nat) (s s' : SPState),
      okFrom c ops = true → s.cnt i = c → c ≤ 2 →
      s.prot i = protOfCnt c →
      runOps i ops s = some s' →
      s'.cnt i = heightFrom c ops ∧ heightFrom c ops ≤ 2 ∧
        s'.prot i = protOfCnt (heightFrom c ops) := by
  intro ops
  induction ops with
  | nil =>
    intro c s s' _ hc hle hpr hrun
    simp only [runOps] at hrun
    obtain rfl : s = s' := by simpa using hrun
    simp [heightFrom, hc, hle, hpr]
  | cons op rest ih =>
    intro c s s' hok hc hle hpr hrun
    cases op with
    | en =>
      simp only [runOps, applySlotOp] at hrun
      simp only [okFrom] at hok
      interval_cases c
      · rw [enable_at_zero s i hc] at hrun
        simp only [Option.some_bind] at hrun
        refine ih 1 _ s' hok ?_ (by omega) ?_ hrun
        · rw [cnt_setProt, cnt_setCnt]
        · rw [prot_setProt]; rfl
      · rw [enable_at_one s i hc] at hrun
        simp only [Option.some_bind] at hrun
        refine ih 2 _ s' hok ?_ (by omega) ?_ hrun
        · rw [cnt_setCnt]
        · rw [prot_setCnt, hpr]; rfl
      · rw [enable_at_two s i hc] at hrun
        simp at hrun
    | dis =>
      simp only [runOps, applySlotOp] at hrun
      interval_cases c
      · simp [okFrom] at hok
      · simp only [okFrom] at hok
        rw [disable_at_one s i hc] at hrun
        simp only [Option.some_bind] at hrun
        have h0 : heightFrom 1 (SlotOp.dis :: rest) = heightFrom 0 rest := rfl
        rw [h0]
        refine ih 0 _ s' hok ?_ (by omega) ?_ hrun
        · rw [cnt_setProt, cnt_setCnt]
        · rw [prot_setProt]; rfl
      · simp only [okFrom] at hok
        rw [disable_at_two s i hc] at hrun
        simp only [Option.some_bind] at hrun
        have h0 : heightFrom 2 (SlotOp.dis :: rest) = heightFrom 1 rest := rfl
        rw [h0]
        refine ih 1 _ s' hok ?_ (by omega) ?_ hrun
        · rw [cnt_setCnt]
        · rw [prot_setCnt, hpr]; rfl

theorem cnt_at0 (s : SPState) : s.cnt 0 = s.cnt0 := rfl
theorem cnt_at1 (s : SPState) : s.cnt 1 = s.cnt1 := rfl
theorem cnt_at2 (s : SPState) : s.cnt 2 = s.cnt2 := rfl
theorem setCnt_at0 (s : SPState) (v : Nat) :
    s.setCnt 0 v = { s with cnt0 := v } := rfl
theorem setCnt_at1 (s : SPState) (v : Nat) :
    s.setCnt 1 v = { s with cnt1 := v } := rfl
theorem setCnt_at2 (s : SPState) (v : Nat) :
    s.setCnt 2 v = { s with cnt2 := v } := rfl
theorem setProt_at0 (s : SPState) (p : Prot) :
    s.setProt 0 p = { s with prot0 := p } := rfl
theorem setProt_at1 (s : SPState) (p : Prot) :
    s.setProt 1 p = { s with prot1 := p } := rfl
theorem setProt_at2 (s : SPState) (p : Prot) :
    s.setProt 2 p = { s with prot2 := p } := rfl

/-!
## The claims -/

/-- C10: for every pending level other than 2 (`jl_signal_pending`
in {0, 1}), `jl_safepoint_defer_sigint` is a no-op: it returns the
state unchanged (pending level, all three enable counters, all page
protections).  The only state change it ever performs is the 2 → 1
transition: pending level drops to 1, slot 1's counter is
decremented (as a `uint8_t`), every other field is untouched, and
the slot 1 page reverts to read-only exactly when the decremented
counter reaches 0. -/
theorem claim_C10_defer_sigint_frame (s : SPState) :
    (s.signal_pending ≠ 2 → jl_safepoint_defer_sigint s = some s) ∧
    (s.signal_pending = 2 → ∃ s1, jl_safepoint_defer_sigint s = some s1 ∧
      s1.signal_pending = 1 ∧ s1.cnt1 = (s.cnt1 + 255) % 256 ∧
      s1.cnt0 = s.cnt0 ∧ s1.cnt2 = s.cnt2 ∧
      s1.prot0 = s.prot0 ∧ s1.prot2 = s.prot2 ∧
      s1.gc_running = s.gc_running ∧
      ((s.cnt1 + 255) % 256 ≠ 0 → s1.prot1 = s.prot1) ∧
      ((s.cnt1 + 255) % 256 = 0 → s1.prot1 = Prot.readOnly)) := by
  constructor
  · intro h
    simp [jl_safepoint_defer_sigint, h]
  · intro h
    by_cases hc : (s.cnt1 + 255) % 256 = 0
    · refine ⟨{ s with signal_pending := 1, cnt1 := 0, prot1 := .readOnly },
        ?_, ?_⟩
      · simp [jl_safepoint_defer_sigint, h, jl_safepoint_disable,
          cnt_at1, setCnt_at1, setProt_at1, hc]
      · simp [hc]
    · refine ⟨{ s with signal_pending := 1, cnt1 := (s.cnt1 + 255) % 256 },
        ?_, ?_⟩
      · simp [jl_safepoint_defer_sigint, h, jl_safepoint_disable,
          cnt_at1, setCnt_at1, setProt_at1, hc, Nat.pos_of_ne_zero hc]
      · simp [hc]

/-- Witness for C10: at interrupt level 1 the call leaves the state
exactly as it was. -/
theorem claim_C10_witness :
    jl_safepoint_defer_sigint levelOneSP = some levelOneSP :=
  (claim_C10_defer_sigint_frame levelOneSP).1 (by decide)

/-- C2 (amended): for every slot, over any successful run of
enable/disable calls from the initial state that never disables
below zero, the counter never exceeds 2 and the page protection is
the pure function of the counter (counter > 0 iff inaccessible);
after a balanced sequence the counter is back to 0 and the page
read-only.  An extra unbalanced disable, however, is NOT an
assertion violation: the `uint8_t` counter wraps to 255 and the page
protection is left unchanged. -/
theorem claim_C2_slot_counters :
    (∀ (i : Fin 3) (ops : List SlotOp) (s' : SPState),
        balanced ops = true → runOps i ops initSP = some s' →
        s'.cnt i = 0 ∧ s'.prot i = Prot.readOnly) ∧
    (∀ (i : Fin 3) (ops : List SlotOp) (s' : SPState),
        okFrom 0 ops = true → runOps i ops initSP = some s' →
        s'.cnt i ≤ 2 ∧ s'.prot i = protOfCnt (s'.cnt i)) ∧
    (∀ i : Fin 3, jl_safepoint_disable initSP i =
        some (initSP.setCnt i 255) ∧
      (initSP.setCnt i 255).cnt i = 255 ∧
      (initSP.setCnt i 255).prot i = initSP.prot i) := by
  refine ⟨?_, ?_, ?_⟩
  · intro i ops s' hbal hrun
    have hok : okFrom 0 ops = true := by
      have := hbal
      unfold balanced at this
      exact (Bool.and_eq_true _ _ |>.mp this).1
    have hh : heightFrom 0 ops = 0 := by
      have := hbal
      unfold balanced at this
      have h2 := (Bool.and_eq_true _ _ |>.mp this).2
      simpa using h2
    have := runOps_tracked i ops 0 initSP s' hok (initSP_cnt i) (by omega)
      (by rw [initSP_prot]; rfl) hrun
    rw [hh] at this
    exact ⟨this.1, by rw [this.2.2]; rfl⟩
  · intro i ops s' hok hrun
    have := runOps_tracked i ops 0 initSP s' hok (initSP_cnt i) (by omega)
      (by rw [initSP_prot]; rfl) hrun
    refine ⟨by omega, ?_⟩
    rw [this.2.2, this.1]
  · intro i
    refine ⟨disable_at_zero initSP i (initSP_cnt i), ?_, ?_⟩
    · exact cnt_setCnt initSP i 255
    · exact prot_setCnt initSP i i 255

/-- Witness for C2: one balanced enable/disable pair on slot 0 from
the initial state ends with counter 0 and a read-only page. -/
theorem claim_C2_witness : initSP.cnt 0 = 0 ∧ initSP.prot 0 = Prot.readOnly :=
  claim_C2_slot_counters.1 0 [SlotOp.en, SlotOp.dis] initSP
    (by decide) (by decide)

/-- C2 counterexample (to the claim as stated): an extra unbalanced
disable is not an assertion violation.  From a zero counter
`jl_safepoint_disable` returns normally (`≠ none`), wrapping the
`uint8_t` counter to 255 — which also exceeds 2 — while the page
stays read-only: the pre-decrement of an unsigned 0 is 255, so the
code's `assert(cnt > 0)` is vacuously true. -/
theorem claim_C2_counterexample :
    jl_safepoint_disable initSP 0 ≠ none ∧
    (jl_safepoint_disable initSP 0).map (fun s => (s.cnt0, s.prot0)) =
      some (255, Prot.readOnly) := by decide

/-- C5 (amended): with more than one thread and the GC flag set,
`jl_safepoint_end_gc` performs, in this order: acquire the safepoint
lock, disable slot 2, then disable slot 1, then store 0 into
`jl_gc_running` (release), then UNLOCK the safepoint lock, and only
then broadcast the safepoint condition variable — the code unlocks
before broadcasting, not after. -/
theorem claim_C5_end_gc_order (n : Nat) (s : SPState)
    (hn : n ≠ 1) (hg : s.gc_running ≠ 0) :
    ∃ s1 s2, jl_safepoint_disable s 2 = some s1 ∧
      jl_safepoint_disable s1 1 = some s2 ∧
      jl_safepoint_end_gc n s =
        some ({ s2 with gc_running := 0 },
          [SPEvent.lock, SPEvent.disable 2, SPEvent.disable 1,
           SPEvent.storeGC 0, SPEvent.unlock, SPEvent.broadcast]) := by
  obtain ⟨s1, h1⟩ := disable_some s 2
  obtain ⟨s2, h2⟩ := disable_some s1 1
  refine ⟨s1, s2, h1, h2, ?_⟩
  simp [jl_safepoint_end_gc, hg, hn, h1, h2]

/-- Witness for C5: the amended order at the concrete two-thread
collector state. -/
theorem claim_C5_witness :
    ∃ s1 s2, jl_safepoint_disable gcRunningSP 2 = some s1 ∧
      jl_safepoint_disable s1 1 = some s2 ∧
      jl_safepoint_end_gc 2 gcRunningSP =
        some ({ s2 with gc_running := 0 },
          [SPEvent.lock, SPEvent.disable 2, SPEvent.disable 1,
           SPEvent.storeGC 0, SPEvent.unlock, SPEvent.broadcast]) :=
  claim_C5_end_gc_order 2 gcRunningSP (by decide) (by decide)

/-- C5 counterexample (to the claim as stated): the event trace of
`jl_safepoint_end_gc` ends with unlock followed by broadcast, not
broadcast followed by unlock as the claim asserts. -/
theorem claim_C5_counterexample :
    (jl_safepoint_end_gc 2 gcRunningSP).map Prod.snd =
      some [SPEvent.lock, SPEvent.disable 2, SPEvent.disable 1,
            SPEvent.storeGC 0, SPEvent.unlock, SPEvent.broadcast] ∧
    (jl_safepoint_end_gc 2 gcRunningSP).map Prod.snd ≠
      some [SPEvent.lock, SPEvent.disable 2, SPEvent.disable 1,
            SPEvent.storeGC 0, SPEvent.broadcast, SPEvent.unlock] := by
  decide

/-- The consume result of `jl_safepoint_consume_sigint`: true
exactly when the pending level on entry is at least 1. -/
theorem consume_result (s : SPState) (h : s.signal_pending ≤ 2) :
    (jl_safepoint_consume_sigint s).map Prod.fst =
      some (decide (1 ≤ s.signal_pending)) := by
  rcases s with ⟨sp, gc, c0, c1, c2, p0, p1, p2⟩
  simp only at h
  interval_cases sp
  · simp [jl_safepoint_consume_sigint]
  · obtain ⟨s1, h1⟩ := disable_some ⟨1, gc, c0, c1, c2, p0, p1, p2⟩ 0
    simp [jl_safepoint_consume_sigint, h1]
  · obtain ⟨s1, h1⟩ := disable_some ⟨2, gc, c0, c1, c2, p0, p1, p2⟩ 1
    obtain ⟨s2, h2⟩ := disable_some s1 0
    simp [jl_safepoint_consume_sigint, h1, h2]

/-- `enable_sigint` then `consume_sigint` on a wellformed state
(slot 0 carries exactly the interrupt contribution, slot 1 carries a
GC contribution `g ≤ 1` plus the interrupt contribution, protections
follow the counters): the pair succeeds, returns true, resets the
level to 0, and leaves slots 0 and 1 in the state they would have
with no interrupt activity at all; when the starting level is 0 the
counters and protections are restored exactly. -/
theorem sigint_pair_restores (s : SPState) (g : Nat)
    (hsp : s.signal_pending ≤ 2)
    (h0 : s.cnt0 = if 1 ≤ s.signal_pending then 1 else 0)
    (h1 : s.cnt1 = g + (if s.signal_pending = 2 then 1 else 0))
    (hg : g ≤ 1)
    (hp0 : s.prot0 = protOfCnt s.cnt0)
    (hp1 : s.prot1 = protOfCnt s.cnt1) :
    ∃ s', sigintPair s = some (true, s') ∧
      s'.signal_pending = 0 ∧
      s'.cnt0 = 0 ∧ s'.prot0 = Prot.readOnly ∧
      s'.cnt1 = g ∧ s'.prot1 = protOfCnt g ∧
      s'.cnt2 = s.cnt2 ∧ s'.prot2 = s.prot2 ∧
      s'.gc_running = s.gc_running ∧
      (s.signal_pending = 0 →
        s'.cnt0 = s.cnt0 ∧ s'.cnt1 = s.cnt1 ∧
        s'.prot0 = s.prot0 ∧ s'.prot1 = s.prot1) := by
  rcases s with ⟨sp, gc, c0, c1, c2, p0, p1, p2⟩
  simp only at hsp h0 h1 hp0 hp1 ⊢
  interval_cases g
  · interval_cases sp
    · norm_num at h0 h1; subst h0; subst h1
      norm_num [protOfCnt] at hp0 hp1; subst hp0; subst hp1
      refine ⟨⟨0, gc, 0, 0, c2, .readOnly, .readOnly, p2⟩, ?_, ?_⟩
      · simp [sigintPair, jl_safepoint_enable_sigint,
          jl_safepoint_consume_sigint, jl_safepoint_enable,
          jl_safepoint_disable, cnt_at0, cnt_at1, cnt_at2,
          setCnt_at0, setCnt_at1, setCnt_at2,
          setProt_at0, setProt_at1, setProt_at2]
      · simp [protOfCnt]
    · norm_num at h0 h1; subst h0; subst h1
      norm_num [protOfCnt] at hp0 hp1; subst hp0; subst hp1
      refine ⟨⟨0, gc, 0, 0, c2, .readOnly, .readOnly, p2⟩, ?_, ?_⟩
      · simp [sigintPair, jl_safepoint_enable_sigint,
          jl_safepoint_consume_sigint, jl_safepoint_enable,
          jl_safepoint_disable, cnt_at0, cnt_at1, cnt_at2,
          setCnt_at0, setCnt_at1, setCnt_at2,
          setProt_at0, setProt_at1, setProt_at2]
      · simp [protOfCnt]
    · norm_num at h0 h1; subst h0; subst h1
      norm_num [protOfCnt] at hp0 hp1; subst hp0; subst hp1
      refine ⟨⟨0, gc, 0, 0, c2, .readOnly, .readOnly, p2⟩, ?_, ?_⟩
      · simp [sigintPair, jl_safepoint_enable_sigint,
          jl_safepoint_consume_sigint, jl_safepoint_enable,
          jl_safepoint_disable, cnt_at0, cnt_at1, cnt_at2,
          setCnt_at0, setCnt_at1, setCnt_at2,
          setProt_at0, setProt_at1, setProt_at2]
      · simp [protOfCnt]
  · interval_cases sp
    · norm_num at h0 h1; subst h0; subst h1
      norm_num [protOfCnt] at hp0 hp1; subst hp0; subst hp1
      refine ⟨⟨0, gc, 0, 1, c2, .readOnly, .noAccess, p2⟩, ?_, ?_⟩
      · simp [sigintPair, jl_safepoint_enable_sigint,
          jl_safepoint_consume_sigint, jl_safepoint_enable,
          jl_safepoint_disable, cnt_at0, cnt_at1, cnt_at2,
          setCnt_at0, setCnt_at1, setCnt_at2,
          setProt_at0, setProt_at1, setProt_at2]
      · simp [protOfCnt]
    · norm_num at h0 h1; subst h0; subst h1
      norm_num [protOfCnt] at hp0 hp1; subst hp0; subst hp1
      refine ⟨⟨0, gc, 0, 1, c2, .readOnly, .noAccess, p2⟩, ?_, ?_⟩
      · simp [sigintPair, jl_safepoint_enable_sigint,
          jl_safepoint_consume_sigint, jl_safepoint_enable,
          jl_safepoint_disable, cnt_at0, cnt_at1, cnt_at2,
          setCnt_at0, setCnt_at1, setCnt_at2,
          setProt_at0, setProt_at1, setProt_at2]
      · simp [protOfCnt]
    · norm_num at h0 h1; subst h0; subst h1
      norm_num [protOfCnt] at hp0 hp1; subst hp0; subst hp1
      refine ⟨⟨0, gc, 0, 1, c2, .readOnly, .noAccess, p2⟩, ?_, ?_⟩
      · simp [sigintPair, jl_safepoint_enable_sigint,
          jl_safepoint_consume_sigint, jl_safepoint_enable,
          jl_safepoint_disable, cnt_at0, cnt_at1, cnt_at2,
          setCnt_at0, setCnt_at1, setCnt_at2,
          setProt_at0, setProt_at1, setProt_at2]
      · simp [protOfCnt]

/-- C3 (amended): for every wellformed starting state,
`jl_safepoint_enable_sigint` followed by
`jl_safepoint_consume_sigint` returns the pending level to 0 and
leaves slots 0 and 1 in the state they would have with no interrupt
activity (the GC contribution `g` to slot 1 is preserved); the
counters and protections are restored exactly when the starting
level is 0 — for starting level 1 or 2 the pre-existing interrupt
contributions are consumed, so the counters end lower than they
began.  `jl_safepoint_consume_sigint` returns true iff the pending
level on entry is at least 1 (so the pair's consume, entered at
level 2, returns true). -/
theorem claim_C3_sigint_round_trip :
    (∀ (s : SPState) (g : Nat),
      s.signal_pending ≤ 2 →
      s.cnt0 = (if 1 ≤ s.signal_pending then 1 else 0) →
      s.cnt1 = g + (if s.signal_pending = 2 then 1 else 0) →
      g ≤ 1 →
      s.prot0 = protOfCnt s.cnt0 →
      s.prot1 = protOfCnt s.cnt1 →
      ∃ s', sigintPair s = some (true, s') ∧
        s'.signal_pending = 0 ∧
        s'.cnt0 = 0 ∧ s'.prot0 = Prot.readOnly ∧
        s'.cnt1 = g ∧ s'.prot1 = protOfCnt g ∧
        s'.cnt2 = s.cnt2 ∧ s'.prot2 = s.prot2 ∧
        s'.gc_running = s.gc_running ∧
        (s.signal_pending = 0 →
          s'.cnt0 = s.cnt0 ∧ s'.cnt1 = s.cnt1 ∧
          s'.prot0 = s.prot0 ∧ s'.prot1 = s.prot1)) ∧
    (∀ s : SPState, s.signal_pending ≤ 2 →
      (jl_safepoint_consume_sigint s).map Prod.fst =
        some (decide (1 ≤ s.signal_pending))) :=
  ⟨fun s g hsp h0 h1 hg hp0 hp1 =>
      sigint_pair_restores s g hsp h0 h1 hg hp0 hp1,
   fun s h => consume_result s h⟩

/-- Witness for C3: from the pristine state (level 0) the pair
restores slot counters and protections exactly, and standalone
consume at level 1 returns true. -/
theorem claim_C3_witness :
    (∃ s', sigintPair initSP = some (true, s') ∧
      s'.signal_pending = 0 ∧
      s'.cnt0 = 0 ∧ s'.prot0 = Prot.readOnly ∧
      s'.cnt1 = 0 ∧ s'.prot1 = protOfCnt 0 ∧
      s'.cnt2 = initSP.cnt2 ∧ s'.prot2 = initSP.prot2 ∧
      s'.gc_running = initSP.gc_running ∧
      (initSP.signal_pending = 0 →
        s'.cnt0 = initSP.cnt0 ∧ s'.cnt1 = initSP.cnt1 ∧
        s'.prot0 = initSP.prot0 ∧ s'.prot1 = initSP.prot1)) ∧
    (jl_safepoint_consume_sigint levelOneSP).map Prod.fst =
      some (decide (1 ≤ levelOneSP.signal_pending)) :=
  ⟨claim_C3_sigint_round_trip.1 initSP 0 (by decide) (by decide) (by decide)
      (by decide) (by decide) (by decide),
   claim_C3_sigint_round_trip.2 levelOneSP (by decide)⟩

/-- C3 counterexample (to the claim as stated): starting at
interrupt level 1 (slot 0 enabled once for the pending sigint, no
GC), the pair returns slot 0's counter to 0 and its page to
read-only, which differs from the level 1 values (counter 1, page
inaccessible) — the state before the pair is not restored. -/
theorem claim_C3_counterexample :
    (sigintPair levelOneSP).map (fun r => (r.2.cnt0, r.2.prot0)) =
      some (0, Prot.readOnly) ∧
    levelOneSP.cnt0 = 1 ∧ levelOneSP.prot0 = Prot.noAccess := by decide

/-- `jl_safepoint_defer_sigint` never hits an assertion failure. -/
theorem defer_some (s : SPState) : ∃ s1, jl_safepoint_defer_sigint s = some s1 := by
  unfold jl_safepoint_defer_sigint
  by_cases h : s.signal_pending = 2
  · obtain ⟨s1, h1⟩ := disable_some s 1
    exact ⟨{ s1 with signal_pending := 1 }, by simp [h, h1]⟩
  · exact ⟨s, by simp [h]⟩

/-- `jl_safepoint_consume_sigint` succeeds whenever the pending
level is a legal value (at most 2). -/
theorem consume_some (s : SPState) (h : s.signal_pending ≤ 2) :
    ∃ r, jl_safepoint_consume_sigint s = some r := by
  rcases s with ⟨sp, gc, c0, c1, c2, p0, p1, p2⟩
  simp only at h
  interval_cases sp
  · exact ⟨_, rfl⟩
  · obtain ⟨s1, h1⟩ := disable_some ⟨1, gc, c0, c1, c2, p0, p1, p2⟩ 0
    exact ⟨(true, { s1 with signal_pending := 0 }),
      by simp [jl_safepoint_consume_sigint, h1]⟩
  · obtain ⟨s1, h1⟩ := disable_some ⟨2, gc, c0, c1, c2, p0, p1, p2⟩ 1
    obtain ⟨s2, h2⟩ := disable_some s1 0
    exact ⟨(true, { s2 with signal_pending := 0 }),
      by simp [jl_safepoint_consume_sigint, h1, h2]⟩

/-- C4 (amended): for a memory fault at a safepoint address handled
by `segv_handler` for a thread with a current task AND no
safe-restore continuation installed (the safe-restore check precedes
the safepoint check), the thread first enters GC wait
(`jl_set_gc_and_wait`); a non-zero thread then returns with no
interrupt action; thread 0 with a nonzero `defer_signal` calls
`jl_safepoint_defer_sigint` and returns; otherwise thread 0 calls
`jl_safepoint_consume_sigint` and, exactly when it returns true,
clears the force-sigint latch and injects
`jl_interrupt_exception`. -/
theorem claim_C4_segv_safepoint (inp : SegvInput) (s : SPState)
    (hsr : inp.safe_restore = false) (hct : inp.has_ct = true)
    (hsig : inp.sig = SIGSEGV ∨ inp.sig = SIGBUS)
    (hsp : inp.addr_is_safepoint = true)
    (hpend : s.signal_pending ≤ 2) :
    (inp.tid ≠ 0 → segv_handler inp s = some (.ret, [.setGCAndWait], s)) ∧
    (inp.tid = 0 → inp.defer_signal ≠ 0 → ∃ s1,
      jl_safepoint_defer_sigint s = some s1 ∧
      segv_handler inp s = some (.ret, [.setGCAndWait, .deferSigint], s1)) ∧
    (inp.tid = 0 → inp.defer_signal = 0 → ∃ r s1,
      jl_safepoint_consume_sigint s = some (r, s1) ∧
      segv_handler inp s = some
        (if r then SegvAction.throwInterrupt else SegvAction.ret,
         if r then [SegvEvent.setGCAndWait, SegvEvent.consumeSigint true,
                    SegvEvent.clearForceSigint]
         else [SegvEvent.setGCAndWait, SegvEvent.consumeSigint false],
         s1)) := by
  refine ⟨?_, ?_, ?_⟩
  · intro htid
    rcases hsig with h | h <;>
      simp [segv_handler, hsr, hct, hsp, h, htid, SIGSEGV, SIGBUS]
  · intro htid hd
    obtain ⟨s1, h1⟩ := defer_some s
    refine ⟨s1, h1, ?_⟩
    rcases hsig with h | h <;>
      simp [segv_handler, hsr, hct, hsp, h, htid, hd, h1, SIGSEGV, SIGBUS]
  · intro htid hd
    obtain ⟨⟨r, s1⟩, h1⟩ := consume_some s hpend
    refine ⟨r, s1, h1, ?_⟩
    rcases hsig with h | h <;> cases r <;>
      simp [segv_handler, hsr, hct, hsp, h, htid, hd, h1, SIGSEGV, SIGBUS]

/-- Witness for C4: at a safepoint fault on a worker thread
(tid 1), the handler enters GC wait and returns with no interrupt
action. -/
theorem claim_C4_witness :
    segv_handler { safeRestoreFault with safe_restore := false, tid := 1 }
        initSP =
      some (.ret, [.setGCAndWait], initSP) :=
  (claim_C4_segv_safepoint
      { safeRestoreFault with safe_restore := false, tid := 1 } initSP
      rfl rfl (Or.inl rfl) rfl (by decide)).1 (by decide)

/-- C4 counterexample (to the claim as stated): a safepoint-address
fault for a thread with a current task but a safe-restore
continuation installed does NOT enter GC wait — the handler
redirects to `jl_sig_throw` immediately, making zero runtime calls. -/
theorem claim_C4_counterexample :
    segv_handler safeRestoreFault initSP =
      some (.callSigThrow, [], initSP) ∧
    SegvEvent.setGCAndWait ∉ ([] : List SegvEvent) := by decide

/-- C8 (amended): a fault whose address lies within the signal stack
AND whose trapped stack pointer also lies within the signal stack
(`jl_is_on_sigstack` checks both), in the normal handler context (no
safe-restore, current task present, not a safepoint address, not on
the task stack), prints a message and exits the process immediately
with status `sig + 128`. -/
theorem claim_C8_sigstack_overflow (inp : SegvInput) (s : SPState)
    (hsr : inp.safe_restore = false) (hct : inp.has_ct = true)
    (hsig : inp.sig = SIGSEGV ∨ inp.sig = SIGBUS)
    (hsp : inp.addr_is_safepoint = false)
    (hstk : inp.addr_on_stack = false)
    (ha : inp.addr_on_sigstack = true)
    (hr : inp.rsp_on_sigstack = true) :
    segv_handler inp s = some (.printAndExit (inp.sig + 128), [], s) := by
  rcases hsig with h | h <;>
    simp [segv_handler, jl_is_on_sigstack, hsr, hct, hsp, hstk, ha, hr, h,
      SIGSEGV, SIGBUS]

/-- Witness for C8: the concrete fault with both address and stack
pointer on the signal stack exits with 11 + 128 = 139. -/
theorem claim_C8_witness :
    segv_handler { sigstackAddrFault with rsp_on_sigstack := true } initSP =
      some (.printAndExit (11 + 128), [], initSP) :=
  claim_C8_sigstack_overflow
    { sigstackAddrFault with rsp_on_sigstack := true } initSP
    rfl rfl (Or.inl rfl) rfl rfl rfl rfl

/-- C8 counterexample (to the claim as stated): a fault whose
address lies within the signal stack but whose trapped stack pointer
does not is NOT treated as a signal-stack overflow: the handler
falls through to `sigdie` instead of exiting with `sig + 128`. -/
theorem claim_C8_counterexample :
    segv_handler sigstackAddrFault initSP = some (.sigdie, [], initSP) ∧
    SegvAction.sigdie ≠ SegvAction.printAndExit (11 + 128) := by decide

/-- C9 (amended): a successfully suspended thread's record appended
to the profile buffer is its backtrace followed by exactly SIX
trailer words, in order: `tid + 1` (0 stays a sentinel), the current
task pointer, the cycle clock, `sleep_check_state + 1`, and two zero
terminator entries.  If the buffer is full when the thread is
sampled, `jl_profile_stop_timer` is called (the running flag drops)
and nothing is recorded for that thread; once the flag is down no
further thread is recorded. -/
theorem claim_C9_profile_record (isFull : List ProfEntry → Bool)
    (buf : List ProfEntry) (t : ProfThread) (hok : t.suspend_ok = true) :
    (isFull buf = false →
      profile_step isFull (buf, true) t =
        (buf ++ t.bt ++
          [ProfEntry.uintptr (t.tid + 1), ProfEntry.jlvalue t.current_task,
           ProfEntry.uintptr t.cycles, ProfEntry.uintptr (t.sleep_state + 1),
           ProfEntry.uintptr 0, ProfEntry.uintptr 0], true) ∧
      (profile_trailer t).length = 6) ∧
    (isFull buf = true → profile_step isFull (buf, true) t = (buf, false)) ∧
    profile_step isFull (buf, false) t = (buf, false) := by
  refine ⟨fun hf => ⟨?_, rfl⟩, fun hf => ?_, ?_⟩
  · simp [profile_step, profile_trailer, hok, hf]
  · simp [profile_step, hok, hf]
  · simp [profile_step, hok]

/-- Witness for C9: sampling the concrete thread into an empty,
non-full buffer appends its backtrace and the six trailer words. -/
theorem claim_C9_witness :
    profile_step (fun _ => false) ([], true) sampledThread =
      ([] ++ sampledThread.bt ++
        [ProfEntry.uintptr (sampledThread.tid + 1),
         ProfEntry.jlvalue sampledThread.current_task,
         ProfEntry.uintptr sampledThread.cycles,
         ProfEntry.uintptr (sampledThread.sleep_state + 1),
         ProfEntry.uintptr 0, ProfEntry.uintptr 0], true) :=
  ((claim_C9_profile_record (fun _ => false) [] sampledThread rfl).1 rfl).1

/-- C9 counterexample (to the claim as stated): the trailer written
after the backtrace consists of six words, not five — the four
metadata words plus the two zero terminators. -/
theorem claim_C9_counterexample :
    (profile_step (fun _ => false) ([], true) sampledThread).1 =
      sampledThread.bt ++ profile_trailer sampledThread ∧
    (profile_trailer sampledThread).length = 6 ∧
    (profile_trailer sampledThread).length ≠ 5 := by decide

theorem cnt_setCnt_ne (s : SPState) (i j : Fin 3) (v : Nat) (h : j ≠ i) :
    (s.setCnt i v).cnt j = s.cnt j := by
  fin_cases i <;> fin_cases j <;> first | rfl | simp at h

theorem prot_setProt_ne (s : SPState) (i j : Fin 3) (p : Prot) (h : j ≠ i) :
    (s.setProt i p).prot j = s.prot j := by
  fin_cases i <;> fin_cases j <;> first | rfl | simp at h

/-- `jl_safepoint_enable` from a counter at most 1 whose page
protection matches: it succeeds, increments the counter, leaves the
page inaccessible, and touches nothing else. -/
theorem enable_le_one (s : SPState) (i : Fin 3)
    (h : s.cnt i ≤ 1) (hp : s.prot i = protOfCnt (s.cnt i)) :
    ∃ s', jl_safepoint_enable s i = some s' ∧
      s'.cnt i = s.cnt i + 1 ∧ s'.prot i = Prot.noAccess ∧
      (∀ j, j ≠ i → s'.cnt j = s.cnt j ∧ s'.prot j = s.prot j) ∧
      s'.signal_pending = s.signal_pending ∧
      s'.gc_running = s.gc_running := by
  by_cases h0 : s.cnt i = 0
  · refine ⟨(s.setCnt i 1).setProt i .noAccess, enable_at_zero s i h0,
      ?_, ?_, ?_, ?_, ?_⟩
    · rw [cnt_setProt, cnt_setCnt, h0]
    · rw [prot_setProt]
    · intro j hj
      rw [cnt_setProt, cnt_setCnt_ne s i j 1 hj,
        prot_setProt_ne _ i j _ hj, prot_setCnt]
      exact ⟨rfl, rfl⟩
    · rw [pending_setProt, pending_setCnt]
    · rw [gc_setProt, gc_setCnt]
  · have h1 : s.cnt i = 1 := by omega
    refine ⟨s.setCnt i 2, enable_at_one s i h1, ?_, ?_, ?_, ?_, ?_⟩
    · rw [cnt_setCnt, h1]
    · rw [prot_setCnt, hp, h1]; rfl
    · intro j hj
      rw [cnt_setCnt_ne s i j 2 hj, prot_setCnt]
      exact ⟨rfl, rfl⟩
    · rw [pending_setCnt]
    · rw [gc_setCnt]

/-- The observation property of `jl_safepoint_wait_gc`: if the loop
returns, the final load of `jl_gc_running` observed 0. -/
theorem wait_gc_obs :
    ∀ (obs : List Nat) (w : Nat), jl_safepoint_wait_gc obs = some w → w = 0
  | [], w, h => by simp [jl_safepoint_wait_gc] at h
  | v :: rest, w, h => by
    by_cases hv : v = 0
    · cases rest with
      | nil =>
        simp only [jl_safepoint_wait_gc] at h
        simp [hv] at h
      | cons w' rest2 =>
        simp only [jl_safepoint_wait_gc] at h
        by_cases hw : w' = 0
        · simp [hv, hw] at h
          omega
        · have h2 : jl_safepoint_wait_gc rest2 = some w := by
            simpa [hv, hw] using h
          exact wait_gc_obs rest2 w h2
    · cases rest with
      | nil =>
        simp only [jl_safepoint_wait_gc] at h
        simp [hv, jl_safepoint_wait_gc] at h
      | cons w' rest2 =>
        simp only [jl_safepoint_wait_gc] at h
        exact wait_gc_obs (w' :: rest2) w (by simpa [hv] using h)

/-- Losers leave the state unchanged: while `jl_gc_running` is set,
every further serialized caller of `jl_safepoint_start_gc` returns
false without modifying the state. -/
theorem startGCRace_losers (nt : Nat) (hnt : nt ≠ 1) :
    ∀ (k : Nat) (s : SPState), s.gc_running ≠ 0 →
      startGCRace nt JL_GC_STATE_WAITING k s =
        some (List.replicate k false, s)
  | 0, s, _ => rfl
  | k + 1, s, hg => by
    have hstep : jl_safepoint_start_gc nt JL_GC_STATE_WAITING s =
        some (false, s, [SPEvent.lock, SPEvent.casGC false, SPEvent.unlock,
                         SPEvent.waitGC]) := by
      simp [jl_safepoint_start_gc, hnt, hg]
    rw [startGCRace, hstep]
    simp [startGCRace_losers nt hnt k s hg, List.replicate_succ]

theorem count_true_replicate_false (k : Nat) :
    (List.replicate k false).count true = 0 := by
  induction k with
  | zero => rfl
  | succ n ih => simp [List.replicate_succ, List.count_cons, ih]

/-- C1: GC election.  (i) With exactly one thread,
`jl_safepoint_start_gc` stores 1 into `jl_gc_running` and returns
true without acquiring the safepoint lock (its trace is the single
relaxed store).  (ii) With more than one thread, among `k + 1`
callers serialized by the safepoint lock from a state with the flag
clear, exactly the first wins the compare-and-swap, enables slots 1
and 2 (both pages end inaccessible, both counters incremented), and
returns true; every later caller returns false.  (iii) Each loser's
trace is: acquire the lock, fail the CAS, release the lock, then
block in `jl_safepoint_wait_gc`.  (iv) `jl_safepoint_wait_gc`
returns only after a load of `jl_gc_running` observes 0. -/
theorem claim_C1_start_gc_election :
    (∀ (g : Nat) (s : SPState),
      jl_safepoint_start_gc 1 g s =
        some (true, { s with gc_running := 1 }, [SPEvent.storeGC 1]) ∧
      SPEvent.lock ∉ [SPEvent.storeGC 1]) ∧
    (∀ (nt k : Nat) (s : SPState), nt ≠ 1 →
      s.gc_running = 0 → s.cnt 1 ≤ 1 → s.cnt 2 ≤ 1 →
      s.prot 1 = protOfCnt (s.cnt 1) → s.prot 2 = protOfCnt (s.cnt 2) →
      ∃ sw, startGCRace nt JL_GC_STATE_WAITING (k + 1) s =
          some (true :: List.replicate k false, sw) ∧
        (true :: List.replicate k false).count true = 1 ∧
        sw.gc_running = 1 ∧
        sw.cnt 1 = s.cnt 1 + 1 ∧ sw.cnt 2 = s.cnt 2 + 1 ∧
        sw.prot 1 = Prot.noAccess ∧ sw.prot 2 = Prot.noAccess) ∧
    (∀ (nt : Nat) (s : SPState), nt ≠ 1 → s.gc_running ≠ 0 →
      jl_safepoint_start_gc nt JL_GC_STATE_WAITING s =
        some (false, s, [SPEvent.lock, SPEvent.casGC false, SPEvent.unlock,
                         SPEvent.waitGC])) ∧
    (∀ (obs : List Nat) (w : Nat),
      jl_safepoint_wait_gc obs = some w → w = 0) := by
  refine ⟨?_, ?_, ?_, wait_gc_obs⟩
  · intro g s
    exact ⟨by simp [jl_safepoint_start_gc], by decide⟩
  · intro nt k s hnt hg hc1 hc2 hp1 hp2
    obtain ⟨sA, hA, hA1, hA2, hAfr, hAp, hAg⟩ :=
      enable_le_one { s with gc_running := 1 } 1 hc1 hp1
    have hsA2c : sA.cnt 2 = s.cnt 2 := (hAfr 2 (by decide)).1
    have hsA2p : sA.prot 2 = s.prot 2 := (hAfr 2 (by decide)).2
    obtain ⟨sB, hB, hB1, hB2, hBfr, hBp, hBg⟩ :=
      enable_le_one sA 2 (by rw [hsA2c]; exact hc2)
        (by rw [hsA2p, hsA2c]; exact hp2)
    have hwin : jl_safepoint_start_gc nt JL_GC_STATE_WAITING s =
        some (true, sB,
          [SPEvent.lock, SPEvent.casGC true, SPEvent.enable 1,
           SPEvent.enable 2, SPEvent.unlock]) := by
      simp [jl_safepoint_start_gc, hnt, hg, hA, hB]
    have hgB : sB.gc_running = 1 := by rw [hBg, hAg]
    refine ⟨sB, ?_, ?_, hgB, ?_, ?_, ?_, ?_⟩
    · rw [startGCRace, hwin]
      simp [startGCRace_losers nt hnt k sB (by rw [hgB]; omega)]
    · simp [List.count_cons, count_true_replicate_false]
    · rw [(hBfr 1 (by decide)).1, hA1]
      simp [cnt_at1]
    · rw [hB1, hsA2c]
    · rw [(hBfr 1 (by decide)).2, hA2]
    · exact hB2
  · intro nt s hnt hg
    simp [jl_safepoint_start_gc, hnt, hg]

/-- Witness for C1: from the pristine state, two serialized
two-thread callers produce [true, false], slots 1 and 2 enabled. -/
theorem claim_C1_witness :
    ∃ sw, startGCRace 2 JL_GC_STATE_WAITING (1 + 1) initSP =
        some (true :: List.replicate 1 false, sw) ∧
      (true :: List.replicate 1 false).count true = 1 ∧
      sw.gc_running = 1 ∧
      sw.cnt 1 = initSP.cnt 1 + 1 ∧ sw.cnt 2 = initSP.cnt 2 + 1 ∧
      sw.prot 1 = Prot.noAccess ∧ sw.prot 2 = Prot.noAccess :=
  claim_C1_start_gc_election.2.1 2 1 initSP (by decide) (by decide)
    (by decide) (by decide) (by decide) (by decide)

/-- Any member of `visited` stays in every further exploration. -/
theorem rdvExplore_mono (rv : Int) :
    ∀ (n : Nat) (vis fr : List RConf) (c : RConf),
      c ∈ vis → c ∈ rdvExplore rv n vis fr
  | 0, _, _, _, h => h
  | _ + 1, _, [], _, h => h
  | n + 1, _vis, _f :: _fs, c, h =>
    rdvExplore_mono rv n _ _ c (List.mem_append_left _ h)

set_option maxRecDepth 40000 in
/-- `rdvReach 3` is closed under `rdvStep 3`. -/
theorem rdvReach_closed_3 :
    ∀ c ∈ rdvReach 3, ∀ c' ∈ rdvStep 3 c, c' ∈ rdvReach 3 := by decide

set_option maxRecDepth 40000 in
/-- `rdvReach 1` is closed under `rdvStep 1`. -/
theorem rdvReach_closed_1 :
    ∀ c ∈ rdvReach 1, ∀ c' ∈ rdvStep 1 c, c' ∈ rdvReach 1 := by decide

/-- Every configuration reachable with resume value 3 is in the
computed set. -/
theorem rdvReachable_mem_3 (c : RConf) (h : RdvReachable 3 c) :
    c ∈ rdvReach 3 := by
  induction h with
  | init => exact rdvExplore_mono 3 64 _ _ _ (by simp)
  | step _ hstep ih => exact rdvReach_closed_3 _ ih _ hstep

/-- Every configuration reachable with resume value 1 is in the
computed set. -/
theorem rdvReachable_mem_1 (c : RConf) (h : RdvReachable 1 c) :
    c ∈ rdvReach 1 := by
  induction h with
  | init => exact rdvExplore_mono 1 64 _ _ _ (by simp)
  | step _ hstep ih => exact rdvReach_closed_1 _ ih _ hstep

set_option maxRecDepth 40000 in
/-- Decided invariant of the rendezvous for resume value 3. -/
theorem rdvInv_3 :
    ∀ c ∈ rdvReach 3,
      (c.lpc = 11 → c.req = 0 ∧ c.ctxPublished = true ∧ c.ctxNull = false) ∧
      (c.lpc = 18 → c.req = 0) ∧
      (c.tpc = 7 → c.req = 3) ∧
      (c.tpc = 2 → c.req = -1) ∧
      (c.lpc = 20 → c.ctxNull = true ∧ c.mutex ≠ 1) ∧
      (c.lpc = 6 → c.req = -1 →
        rdvStep 3 c = [{ c with mutex := 0, lpc := 10 }]) := by decide

set_option maxRecDepth 40000 in
/-- Decided invariant of the rendezvous for resume value 1. -/
theorem rdvInv_1 :
    ∀ c ∈ rdvReach 1,
      (c.lpc = 11 → c.req = 0 ∧ c.ctxPublished = true ∧ c.ctxNull = false) ∧
      (c.lpc = 18 → c.req = 0) ∧
      (c.tpc = 7 → c.req = 1) ∧
      (c.tpc = 2 → c.req = -1) ∧
      (c.lpc = 20 → c.ctxNull = true ∧ c.mutex ≠ 1) ∧
      (c.lpc = 6 → c.req = -1 →
        rdvStep 1 c = [{ c with mutex := 0, lpc := 10 }]) := by decide

/-- C6: round-trip of the per-thread rendezvous.  For every `sig`
and every reachable configuration of the listener/target transition
system (with `rv` the value `jl_thread_resume` stores):
`signal_request` is 0 when `jl_thread_suspend_and_get_state` returns
successfully (listener counter 11) and again after
`jl_thread_resume` completes (counter 18); the resume store is 3
when `sig = -1` and 1 otherwise; and the target's `usr2_handler`,
woken from the exit-condition wait (target counter 7), observes
exactly that value — hence exactly 1 or 3 — before exchanging the
word back to 0 and broadcasting the caught condition. -/
theorem claim_C6_rendezvous_round_trip (sig : Int) (c : RConf)
    (h : RdvReachable (jl_thread_resume_store sig) c) :
    jl_thread_resume_store sig = (if sig = -1 then 3 else 1) ∧
    (c.lpc = 11 → c.req = 0) ∧
    (c.lpc = 18 → c.req = 0) ∧
    (c.tpc = 7 → c.req = jl_thread_resume_store sig ∧
      (c.req = 1 ∨ c.req = 3)) := by
  by_cases hs : sig = -1
  · have hrv : jl_thread_resume_store sig = 3 := by
      simp [jl_thread_resume_store, hs]
    rw [hrv] at h
    have hm := rdvInv_3 c (rdvReachable_mem_3 c h)
    exact ⟨by simp [jl_thread_resume_store, hs], fun h11 => (hm.1 h11).1,
      hm.2.1, fun h7 => ⟨by rw [hrv]; exact hm.2.2.1 h7,
        Or.inr (hm.2.2.1 h7)⟩⟩
  · have hrv : jl_thread_resume_store sig = 1 := by
      simp [jl_thread_resume_store, hs]
    rw [hrv] at h
    have hm := rdvInv_1 c (rdvReachable_mem_1 c h)
    exact ⟨by simp [jl_thread_resume_store, hs], fun h11 => (hm.1 h11).1,
      hm.2.1, fun h7 => ⟨by rw [hrv]; exact hm.2.2.1 h7,
        Or.inl (hm.2.2.1 h7)⟩⟩

/-- Witness for C6: the initial configuration (counters 0, request
0) with `sig = 0`. -/
theorem claim_C6_witness :
    jl_thread_resume_store 0 = (if (0 : Int) = -1 then 3 else 1) ∧
    (rdvInit.lpc = 11 → rdvInit.req = 0) ∧
    (rdvInit.lpc = 18 → rdvInit.req = 0) ∧
    (rdvInit.tpc = 7 → rdvInit.req = jl_thread_resume_store 0 ∧
      (rdvInit.req = 1 ∨ rdvInit.req = 3)) :=
  claim_C6_rendezvous_round_trip 0 rdvInit RdvReachable.init

/-- C7: the timeout path of `jl_thread_suspend_and_get_state`.  In
every reachable configuration: when the listener reaches the
failure return (counter 20, entered exactly when the timeout CAS
1 → 0 succeeded) the context is NULL and the listener no longer
holds the in-signal lock; when instead the CAS observed −1 (counter
6 with request −1) the only possible step is to park once more on
the caught condition (counter 10); and a successful return (counter
11) carries the published context with `signal_request` 0.  A NULL
context makes `signal_listener` skip that thread's sample: the
profile buffer is unchanged. -/
theorem claim_C7_suspend_timeout (sig : Int) (c : RConf)
    (h : RdvReachable (jl_thread_resume_store sig) c) :
    (c.lpc = 20 → c.ctxNull = true ∧ c.mutex ≠ 1) ∧
    (c.lpc = 6 → c.req = -1 →
      rdvStep (jl_thread_resume_store sig) c =
        [{ c with mutex := 0, lpc := 10 }]) ∧
    (c.lpc = 11 → c.req = 0 ∧ c.ctxPublished = true ∧
      c.ctxNull = false) ∧
    (∀ (isFull : List ProfEntry → Bool) (buf : List ProfEntry) (b : Bool)
      (t : ProfThread), t.suspend_ok = false →
      profile_step isFull (buf, b) t = (buf, b)) := by
  have hskip : ∀ (isFull : List ProfEntry → Bool) (buf : List ProfEntry)
      (b : Bool) (t : ProfThread), t.suspend_ok = false →
      profile_step isFull (buf, b) t = (buf, b) := by
    intro isFull buf b t ht
    simp [profile_step, ht]
  by_cases hs : sig = -1
  · have hrv : jl_thread_resume_store sig = 3 := by
      simp [jl_thread_resume_store, hs]
    rw [hrv] at h ⊢
    have hm := rdvInv_3 c (rdvReachable_mem_3 c h)
    exact ⟨hm.2.2.2.2.1, hm.2.2.2.2.2, hm.1, hskip⟩
  · have hrv : jl_thread_resume_store sig = 1 := by
      simp [jl_thread_resume_store, hs]
    rw [hrv] at h ⊢
    have hm := rdvInv_1 c (rdvReachable_mem_1 c h)
    exact ⟨hm.2.2.2.2.1, hm.2.2.2.2.2, hm.1, hskip⟩

/-- Witness for C7: the initial configuration with `sig = -1`. -/
theorem claim_C7_witness :
    (rdvInit.lpc = 20 → rdvInit.ctxNull = true ∧ rdvInit.mutex ≠ 1) ∧
    (rdvInit.lpc = 6 → rdvInit.req = -1 →
      rdvStep (jl_thread_resume_store (-1)) rdvInit =
        [{ rdvInit with mutex := 0, lpc := 10 }]) ∧
    (rdvInit.lpc = 11 → rdvInit.req = 0 ∧ rdvInit.ctxPublished = true ∧
      rdvInit.ctxNull = false) ∧
    (∀ (isFull : List ProfEntry → Bool) (buf : List ProfEntry) (b : Bool)
      (t : ProfThread), t.suspend_ok = false →
      profile_step isFull (buf, b) t = (buf, b)) :=
  claim_C7_suspend_timeout (-1) rdvInit RdvReachable.init
